import Mathlib

/-!
Verification of the Mandelbrot renderer core of this repository
(src/mandelbrotset.rs) and the viewport-parsing boundary (src/main.rs).

Modelling choices:
* Rust `f32`/`f64` arithmetic is embedded as exact rational arithmetic
  (`Rat`).  All claims under study are structural (which formulas run,
  which branches are taken); the concrete inputs they mention are small
  integers or dyadic rationals on which `f32` arithmetic is exact.
* Rust `u32` counters and pixel indices are embedded as `Nat`.
* The `turbo` gradient of the external `colorgrad` crate is data of a
  third-party crate, not of this repository; the `ColoredColorMap`
  therefore carries its gradient as an abstract field `gradient : Rat → RGB`
  (the composite of `Gradient::at` and `to_rgba8`'s first three channels).
  No claim depends on the gradient's concrete values.
-/

/-- An RGB pixel: three byte channels, as in `image::Rgb<u8>`. -/
abbrev RGB := Nat × Nat × Nat

/-- Rust `f32::round`: round half away from zero, as an integer result. -/
def rustRound (q : Rat) : Int :=
  if 0 ≤ q then Int.floor (q + 1 / 2) else -Int.floor (-q + 1 / 2)

/-- Rust `as u8` cast from a rounded float: saturating into `[0, 255]`. -/
def asU8 (n : Int) : Nat := (min (max n 0) 255).toNat

/-- The grayscale structure of src/mandelbrotset.rs lines 11-13. -/
structure GrayscaleMap where
  max_iterations : Nat

/-- The escaping-branch intensity of `GrayscaleMap::color`
(src/mandelbrotset.rs line 29):
`(i as f32 / self.max_iterations as f32 * 255.0).round() as u8`. -/
def grayscale_intensity (max_iterations i : Nat) : Nat :=
  asU8 (rustRound ((i : Rat) / (max_iterations : Rat) * 255))

/-- `GrayscaleMap::color` (src/mandelbrotset.rs lines 25-32). -/
def GrayscaleMap.color (m : GrayscaleMap) (i : Nat) : RGB :=
  if i = m.max_iterations then (0, 0, 0)
  else
    let intensity := grayscale_intensity m.max_iterations i
    (intensity, intensity, intensity)

/-- The colored structure of src/mandelbrotset.rs lines 40-44; the turbo
gradient of the external `colorgrad` crate is an abstract field. -/
structure ColoredColorMap where
  max_iterations : Nat
  gradient : Rat → RGB

/-- The normalized iteration value of `ColoredColorMap::color`
(src/mandelbrotset.rs line 62):
`i as f64 / (self.max_iterations - 1) as f64`.
The subtraction is on `u32`, hence taken on `Nat` before the cast. -/
def colored_t (max_iterations i : Nat) : Rat :=
  (i : Rat) / ((max_iterations - 1 : Nat) : Rat)

/-- `ColoredColorMap::color` (src/mandelbrotset.rs lines 58-66). -/
def ColoredColorMap.color (m : ColoredColorMap) (i : Nat) : RGB :=
  if m.max_iterations ≤ i then (0, 0, 0)
  else m.gradient (colored_t m.max_iterations i)

/-- The `ColorMap` trait (src/mandelbrotset.rs lines 6-9) with its two
implementations, as a closed sum. -/
inductive ColorMap where
  | grayscale : GrayscaleMap → ColorMap
  | colored : ColoredColorMap → ColorMap

/-- Dispatch of `ColorMap::color`. -/
def ColorMap.color : ColorMap → Nat → RGB
  | ColorMap.grayscale m, i => m.color i
  | ColorMap.colored m, i => m.color i

/-- Dispatch of `ColorMap::get_max_iterations`. -/
def ColorMap.get_max_iterations : ColorMap → Nat
  | ColorMap.grayscale m => m.max_iterations
  | ColorMap.colored m => m.max_iterations

/-- The per-pixel escape-time while loop of src/mandelbrotset.rs lines
88-93, with fuel `maxIterations - iteration` making termination
structural: `fuel = 0` is exactly `iteration = max_iterations`, and each
pass decrements fuel as it increments `iteration`. -/
def escapeLoop (x0 y0 : Rat) : Nat → Rat → Rat → Nat → Nat
  | 0, _x, _y, iteration => iteration
  | Nat.succ fuel, x, y, iteration =>
    if x * x + y * y ≤ 4 then
      escapeLoop x0 y0 fuel (x * x - y * y + x0) (2 * x * y + y0) (iteration + 1)
    else
      iteration

/-- The escape-time iteration count for the plane point `(x0, y0)`:
state starts at `x = 0, y = 0, iteration = 0` (src/mandelbrotset.rs
line 85), then the while loop runs. -/
def escapeCount (max_iterations : Nat) (x0 y0 : Rat) : Nat :=
  escapeLoop x0 y0 max_iterations 0 0 0

/-- Pixel-to-plane map for x (src/mandelbrotset.rs lines 77 and 83):
`scale_x = (xmax - xmin) / width`, `x0 = px * scale_x + xmin`. -/
def pixel_to_plane_x (xmin xmax : Rat) (width : Nat) (px : Nat) : Rat :=
  (px : Rat) * ((xmax - xmin) / (width : Rat)) + xmin

/-- Pixel-to-plane map for y (src/mandelbrotset.rs lines 78 and 84):
`scale_y = (ymax - ymin) / height`, `y0 = py * scale_y + ymin`. -/
def pixel_to_plane_y (ymin ymax : Rat) (height : Nat) (py : Nat) : Rat :=
  (py : Rat) * ((ymax - ymin) / (height : Rat)) + ymin

/-- Modelled from the spec: the centered-pixel variant of the
pixel-to-plane map (sampling at pixel centers, `px + 1/2`), which the
spec says the renderer must NOT use.  Stated only to be compared with
`pixel_to_plane_x`; it does not embed any source code. -/
def pixel_to_plane_x_centered (xmin xmax : Rat) (width : Nat) (px : Nat) : Rat :=
  ((px : Rat) + 1 / 2) * ((xmax - xmin) / (width : Rat)) + xmin

/-- Color of one pixel: plane coordinates from the scale formulas, the
escape loop, then the strategy (src/mandelbrotset.rs lines 83-95). -/
def pixel_color (width height : Nat) (color_map : ColorMap)
    (bounds : Rat × Rat × Rat × Rat) (px py : Nat) : RGB :=
  match bounds with
  | (xmin, xmax, ymin, ymax) =>
    let x0 := pixel_to_plane_x xmin xmax width px
    let y0 := pixel_to_plane_y ymin ymax height py
    color_map.color (escapeCount color_map.get_max_iterations x0 y0)

/-- `generate_mandelbrot_set` (src/mandelbrotset.rs lines 74-100): the
grid indexed `[px][py]`, every cell written from its own escape count.
The nested for loops become nested `List.range` maps; the Rust loop
writes each `(px, py)` exactly once, so the grid is the tabulation of
`pixel_color`. -/
def generate_mandelbrot_set (width height : Nat) (color_map : ColorMap)
    (bounds : Rat × Rat × Rat × Rat) : List (List RGB) :=
  (List.range width).map (fun px =>
    (List.range height).map (fun py =>
      pixel_color width height color_map bounds px py))

/-- Rust `str::split(';')` on the character sequence: splitting at every
semicolon, keeping empty fields, never returning an empty list. -/
def splitSemi : List Char → List (List Char)
  | [] => [[]]
  | c :: rest =>
    if c = ';' then [] :: splitSemi rest
    else
      match splitSemi rest with
      | [] => [[c]]
      | g :: gs => (c :: g) :: gs

/-- Digit characters to their decimal value. -/
def digitsToNat (ds : List Char) : Nat :=
  ds.foldl (fun a c => a * 10 + (c.toNat - 48)) 0

/-- Rust `str::parse::<f32>` on its finite-decimal grammar:
optional sign, then `Digits | Digits . Digits? | . Digits`, then an
optional exponent `eE [+-]? Digits`, with nothing left over.  The
special forms `inf`/`nan` (never supplied by the spec's inputs) are not
modelled; the value is the exact rational denoted by the literal. -/
def parseF32 (cs : List Char) : Option Rat :=
  let signSplit : List Char → Bool × List Char := fun l =>
    match l with
    | '+' :: rest => (false, rest)
    | '-' :: rest => (true, rest)
    | rest => (false, rest)
  let (neg, cs1) := signSplit cs
  let (ip, cs2) := cs1.span Char.isDigit
  let (fp, cs3) :=
    match cs2 with
    | '.' :: rest => rest.span Char.isDigit
    | rest => ([], rest)
  if ip.isEmpty && fp.isEmpty then none
  else
    let mantissa : Rat :=
      (digitsToNat ip : Rat) + (digitsToNat fp : Rat) / ((10 : Rat) ^ fp.length)
    let signed : Rat := if neg then -mantissa else mantissa
    match cs3 with
    | [] => some signed
    | e :: rest =>
      if e = 'e' || e = 'E' then
        let (eneg, rest1) := signSplit rest
        let (ed, rest2) := rest1.span Char.isDigit
        if ed.isEmpty || !rest2.isEmpty then none
        else if eneg then some (signed / (10 : Rat) ^ digitsToNat ed)
        else some (signed * (10 : Rat) ^ digitsToNat ed)
      else none

/-- `parse_bounds` (src/main.rs lines 207-218): split on `;`, require
exactly four fields, parse each as `f32`, with the source's error
messages; errors short-circuit left to right as Rust `?` does. -/
def parse_bounds (input : String) : Except String (Rat × Rat × Rat × Rat) :=
  match splitSemi input.toList with
  | [p0, p1, p2, p3] =>
    match parseF32 p0 with
    | none => Except.error "Error parsing xmin"
    | some xmin =>
      match parseF32 p1 with
      | none => Except.error "Error parsing xmax"
      | some xmax =>
        match parseF32 p2 with
        | none => Except.error "Error parsing ymin"
        | some ymin =>
          match parseF32 p3 with
          | none => Except.error "Error parsing ymax"
          | some ymax => Except.ok (xmin, xmax, ymin, ymax)
  | _ => Except.error "Input must be in the format xmin;xmax;ymin;ymax"

/-- The bounds policy of `main` for the grayscale branch (src/main.rs
line 175): `parse_bounds(&input).unwrap_or((-2.0, 2.0, -1.5, 1.5))`. -/
def grayscale_bounds (input : String) : Rat × Rat × Rat × Rat :=
  match parse_bounds input with
  | Except.ok b => b
  | Except.error _ => (-2, 2, -3 / 2, 3 / 2)

/-- The grayscale Mandelbrot path of `main` (src/main.rs lines 170-180
and 221-229): `max_iterations = 100`, bounds from the user's text with
the `unwrap_or` default, rendered at 800 times 600 with the grayscale
strategy. -/
def grayscale_mandelbrot_render (input : String) : List (List RGB) :=
  generate_mandelbrot_set 800 600 (ColorMap.grayscale ⟨100⟩) (grayscale_bounds input)

/-! ## Helper lemmas -/

/-- Unfolding equation of the while loop at positive fuel. -/
theorem escapeLoop_succ (x0 y0 x y : Rat) (fuel iteration : Nat) :
    escapeLoop x0 y0 (fuel + 1) x y iteration =
      if x * x + y * y ≤ 4 then
        escapeLoop x0 y0 fuel (x * x - y * y + x0) (2 * x * y + y0) (iteration + 1)
      else iteration := rfl

/-- The loop never decreases the iteration counter. -/
theorem le_escapeLoop (x0 y0 : Rat) (fuel : Nat) :
    ∀ (x y : Rat) (iteration : Nat), iteration ≤ escapeLoop x0 y0 fuel x y iteration := by
  induction fuel with
  | zero => intro x y it; exact le_rfl
  | succ n ih =>
    intro x y it
    rw [escapeLoop_succ]
    split
    · exact le_trans (Nat.le_succ _) (ih _ _ _)
    · exact le_rfl

/-- The loop adds at most its fuel to the iteration counter. -/
theorem escapeLoop_le (x0 y0 : Rat) (fuel : Nat) :
    ∀ (x y : Rat) (iteration : Nat), escapeLoop x0 y0 fuel x y iteration ≤ iteration + fuel := by
  induction fuel with
  | zero => intro x y it; exact Nat.le_add_right _ _
  | succ n ih =>
    intro x y it
    rw [escapeLoop_succ]
    split
    · exact le_trans (ih _ _ _) (by omega)
    · omega

/-- Reading a tabulated list at an in-range index gives the tabulated value. -/
theorem getD_range_map {α : Type} (f : Nat → α) {w px : Nat} (h : px < w) (d : α) :
    ((List.range w).map f).getD px d = f px := by
  rw [List.getD_eq_getElem?_getD]
  simp [List.getElem?_map, List.getElem?_range, h]

/-! ## Claim theorems -/

/-- C1: for every pixel `(px, py)` of the grid, the escape-time iteration
starts at accumulator `(0, 0)` with counter `0`, runs while
`x² + y² ≤ 4` and `iteration < max_iterations` applying
`x_new = x² − y² + x0`, `y_new = 2·x·y + y0` and incrementing the counter
(this is `escapeCount`, definitionally `escapeLoop … 0 0 0` with those
steps); the resulting count is at most `max_iterations` and the pixel
holds exactly `strategy.color` of that count. -/
theorem mandelbrot_pixel_escape_iteration (width height : Nat) (color_map : ColorMap)
    (xmin xmax ymin ymax : Rat) (px py : Nat) (hx : px < width) (hy : py < height) :
    ((generate_mandelbrot_set width height color_map (xmin, xmax, ymin, ymax)).getD px []).getD
        py (0, 0, 0)
      = color_map.color (escapeCount color_map.get_max_iterations
          (pixel_to_plane_x xmin xmax width px) (pixel_to_plane_y ymin ymax height py))
    ∧ escapeCount color_map.get_max_iterations (pixel_to_plane_x xmin xmax width px)
        (pixel_to_plane_y ymin ymax height py) ≤ color_map.get_max_iterations := by
  constructor
  · rw [generate_mandelbrot_set, getD_range_map _ hx, getD_range_map _ hy, pixel_color]
  · rw [escapeCount]
    have h := escapeLoop_le (pixel_to_plane_x xmin xmax width px)
      (pixel_to_plane_y ymin ymax height py) color_map.get_max_iterations 0 0 0
    omega

/-- Witness for C1 at a 1×1 grayscale render. -/
theorem mandelbrot_pixel_escape_iteration_witness :
    ((generate_mandelbrot_set 1 1 (ColorMap.grayscale ⟨1⟩) (0, 1, 0, 1)).getD 0 []).getD
        0 (0, 0, 0)
      = (ColorMap.grayscale ⟨1⟩).color (escapeCount 1 (pixel_to_plane_x 0 1 1 0)
          (pixel_to_plane_y 0 1 1 0))
    ∧ escapeCount 1 (pixel_to_plane_x 0 1 1 0) (pixel_to_plane_y 0 1 1 0) ≤ 1 :=
  mandelbrot_pixel_escape_iteration 1 1 (ColorMap.grayscale ⟨1⟩) 0 1 0 1 0 0
    (by norm_num) (by norm_num)

/-- C2: the renderer maps pixel `(px, py)` to plane coordinate
`x0 = px * ((xmax − xmin) / width) + xmin` and
`y0 = py * ((ymax − ymin) / height) + ymin`, exactly these formulas
(these are what `pixel_color` feeds to the escape loop), and not the
centered-pixel variant, which differs already at pixel column 0 of the
default viewport. -/
theorem pixel_plane_mapping_exact (width height px py : Nat) (xmin xmax ymin ymax : Rat)
    (_hw : 0 < width) (_hh : 0 < height) :
    pixel_color width height (ColorMap.grayscale ⟨100⟩) (xmin, xmax, ymin, ymax) px py
      = (ColorMap.grayscale ⟨100⟩).color (escapeCount 100
          ((px : Rat) * ((xmax - xmin) / (width : Rat)) + xmin)
          ((py : Rat) * ((ymax - ymin) / (height : Rat)) + ymin))
    ∧ pixel_to_plane_x xmin xmax width px = (px : Rat) * ((xmax - xmin) / (width : Rat)) + xmin
    ∧ pixel_to_plane_y ymin ymax height py = (py : Rat) * ((ymax - ymin) / (height : Rat)) + ymin
    ∧ pixel_to_plane_x (-2) 2 800 0 ≠ pixel_to_plane_x_centered (-2) 2 800 0 := by
  refine ⟨rfl, rfl, rfl, ?_⟩
  rw [pixel_to_plane_x, pixel_to_plane_x_centered]
  norm_num

/-- Witness for C2 at the reference 800×600 resolution. -/
theorem pixel_plane_mapping_exact_witness :
    pixel_color 800 600 (ColorMap.grayscale ⟨100⟩) (-2, 2, -(3 / 2), 3 / 2) 1 1
      = (ColorMap.grayscale ⟨100⟩).color (escapeCount 100
          (((1 : Nat) : Rat) * ((2 - -2) / ((800 : Nat) : Rat)) + -2)
          (((1 : Nat) : Rat) * ((3 / 2 - -(3 / 2)) / ((600 : Nat) : Rat)) + -(3 / 2)))
    ∧ pixel_to_plane_x (-2) 2 800 1
        = ((1 : Nat) : Rat) * ((2 - -2) / ((800 : Nat) : Rat)) + -2
    ∧ pixel_to_plane_y (-(3 / 2)) (3 / 2) 600 1
        = ((1 : Nat) : Rat) * ((3 / 2 - -(3 / 2)) / ((600 : Nat) : Rat)) + -(3 / 2)
    ∧ pixel_to_plane_x (-2) 2 800 0 ≠ pixel_to_plane_x_centered (-2) 2 800 0 :=
  pixel_plane_mapping_exact 800 600 1 1 (-2) 2 (-(3 / 2)) (3 / 2)
    (by norm_num) (by norm_num)

/-- C3: both strategies color the unescaped terminal case exactly black:
the grayscale map at `i = max_iterations` and the colored map at every
`i ≥ max_iterations`. -/
theorem inside_set_black_both_strategies (max_iterations i : Nat) (g : Rat → RGB)
    (hi : max_iterations ≤ i) :
    GrayscaleMap.color ⟨max_iterations⟩ max_iterations = (0, 0, 0)
    ∧ ColoredColorMap.color ⟨max_iterations, g⟩ i = (0, 0, 0) := by
  constructor
  · rw [GrayscaleMap.color]
    simp
  · rw [ColoredColorMap.color]
    simp [hi]

/-- Witness for C3 at `max_iterations = 100`, `i = 100`. -/
theorem inside_set_black_both_strategies_witness :
    GrayscaleMap.color ⟨100⟩ 100 = (0, 0, 0)
    ∧ ColoredColorMap.color ⟨100, fun _ => (0, 0, 0)⟩ 100 = (0, 0, 0) :=
  inside_set_black_both_strategies 100 100 (fun _ => (0, 0, 0)) (by norm_num)

/-- C4 counterexample: the claim puts every escaping normalization in
`[0, 1)`, but at the last escaping count `i = max_iterations − 1`
(here `i = 99`, `max_iterations = 100`) the source computes
`t = 99 / (100 − 1) = 1`, which is not `< 1`. -/
theorem colored_t_reaches_one_counterexample :
    0 ≤ 99 ∧ 99 < 100 ∧ colored_t 100 99 = 1 ∧ ¬(colored_t 100 99 < 1) := by
  have h : colored_t 100 99 = 1 := by
    rw [colored_t]
    norm_num
  exact ⟨by norm_num, by norm_num, h, by rw [h]; norm_num⟩

/-- C4 amended: for the gradient strategy with `max_iterations > 1`,
every escaping count `0 ≤ i < max_iterations` is normalized to
`t = i / (max_iterations − 1)`, and `t` lies in the CLOSED interval
`[0, 1]` (the right end is attained at `i = max_iterations − 1`). -/
theorem colored_t_in_closed_unit_interval (max_iterations i : Nat)
    (hmax : 1 < max_iterations) (hi : i < max_iterations) :
    0 ≤ colored_t max_iterations i ∧ colored_t max_iterations i ≤ 1 := by
  rw [colored_t]
  have hpos : (0 : Rat) < ((max_iterations - 1 : Nat) : Rat) := by
    have h1 : 1 ≤ max_iterations - 1 := by omega
    exact_mod_cast Nat.lt_of_lt_of_le Nat.zero_lt_one h1
  constructor
  · positivity
  · rw [div_le_one hpos]
    have h2 : i ≤ max_iterations - 1 := by omega
    exact_mod_cast h2

/-- Witness for the amended C4 at `max_iterations = 100`, `i = 99`. -/
theorem colored_t_in_closed_unit_interval_witness :
    0 ≤ colored_t 100 99 ∧ colored_t 100 99 ≤ 1 :=
  colored_t_in_closed_unit_interval 100 99 (by norm_num) (by norm_num)

/-- C5 counterexample: the escape-time iteration at plane point `(2, 2)`
with `max_iterations = 100` does NOT produce count 0: the loop entry
test passes at the initial state `(0, 0)`, so one body execution is
tallied before `x² + y² = 8 > 4` stops the loop. -/
theorem escape_count_two_two_ne_zero : escapeCount 100 2 2 ≠ 0 := by
  have h : escapeCount 100 2 2 = 1 := by
    rw [escapeCount, show (100 : Nat) = 99 + 1 from rfl, escapeLoop_succ]
    norm_num
    rw [show (99 : Nat) = 98 + 1 from rfl, escapeLoop_succ]
    norm_num
  rw [h]
  norm_num

/-- C5 amended: the escape-time iteration at plane point `(2, 2)` with
`max_iterations = 100` produces iteration count 1 — the point escapes
during the very first loop pass, the earliest count the loop can
report. -/
theorem escape_count_two_two_eq_one : escapeCount 100 2 2 = 1 := by
  rw [escapeCount, show (100 : Nat) = 99 + 1 from rfl, escapeLoop_succ]
  norm_num
  rw [show (99 : Nat) = 98 + 1 from rfl, escapeLoop_succ]
  norm_num

/-- C6 counterexample: on the malformed input `"1;2;3"` the parser does
error, but the claim's "no grid is produced; the default viewport is
never silently substituted" is false: `main`'s grayscale branch applies
`unwrap_or` to the parse result, substitutes the default viewport
`(-2, 2, -1.5, 1.5)` and renders a full 800-column grid. -/
theorem malformed_viewport_default_substituted :
    parse_bounds "1;2;3" = Except.error "Input must be in the format xmin;xmax;ymin;ymax"
    ∧ grayscale_bounds "1;2;3" = (-2, 2, -3 / 2, 3 / 2)
    ∧ (grayscale_mandelbrot_render "1;2;3").length = 800 := by
  refine ⟨rfl, rfl, ?_⟩
  rw [grayscale_mandelbrot_render, generate_mandelbrot_set]
  simp

/-- C6 amended: `parse_bounds` rejects malformed viewport text with a
descriptive error (the field-count message for inputs such as `"1;2;3"`,
a per-field message such as `"Error parsing xmin"` for inputs such as
`"a;2;3;4"`), but the caller in `main` substitutes the default viewport
`(-2, 2, -1.5, 1.5)` via `unwrap_or` for every parse failure and still
renders a full 800×600 grid from it. -/
theorem parse_failure_defaults_and_renders (input : String) (e : String)
    (h : parse_bounds input = Except.error e) :
    grayscale_bounds input = (-2, 2, -3 / 2, 3 / 2)
    ∧ (grayscale_mandelbrot_render input).length = 800
    ∧ (∀ col ∈ grayscale_mandelbrot_render input, col.length = 600)
    ∧ parse_bounds "a;2;3;4" = Except.error "Error parsing xmin" := by
  have hb : grayscale_bounds input = (-2, 2, -3 / 2, 3 / 2) := by
    rw [grayscale_bounds, h]
  refine ⟨hb, ?_, ?_, rfl⟩
  · rw [grayscale_mandelbrot_render, generate_mandelbrot_set]
    simp
  · intro col hcol
    rw [grayscale_mandelbrot_render, generate_mandelbrot_set] at hcol
    simp only [List.mem_map, List.mem_range] at hcol
    obtain ⟨px, _, rfl⟩ := hcol
    simp

/-- Witness for the amended C6 at the input `"1;2;3"`. -/
theorem parse_failure_defaults_and_renders_witness :
    grayscale_bounds "1;2;3" = (-2, 2, -3 / 2, 3 / 2)
    ∧ (grayscale_mandelbrot_render "1;2;3").length = 800
    ∧ (∀ col ∈ grayscale_mandelbrot_render "1;2;3", col.length = 600)
    ∧ parse_bounds "a;2;3;4" = Except.error "Error parsing xmin" :=
  parse_failure_defaults_and_renders "1;2;3"
    "Input must be in the format xmin;xmax;ymin;ymax" rfl

/-- C7 counterexample: a configuration violating three of the claim's
conditions at once — `max_iterations = 0 < 1` and inverted bounds
`xmin = 2 > xmax = -2`, `ymin = 1 > ymax = -1` — is not rejected and not
surfaced as any failure: the renderer silently produces a complete 2×2
grid. -/
theorem invalid_config_still_renders :
    generate_mandelbrot_set 2 2 (ColorMap.grayscale ⟨0⟩) (2, -2, 1, -1)
      = [[(0, 0, 0), (0, 0, 0)], [(0, 0, 0), (0, 0, 0)]] := rfl

/-- C7 amended: the code performs no configuration validation at all:
`generate_mandelbrot_set` is total over every width, height, strategy
and viewport — non-well-ordered bounds, zero resolution and
`max_iterations < 1` included — and always returns a fully populated
width×height grid instead of any typed failure. -/
theorem renderer_accepts_all_configurations (width height : Nat) (color_map : ColorMap)
    (bounds : Rat × Rat × Rat × Rat) :
    (generate_mandelbrot_set width height color_map bounds).length = width
    ∧ ∀ col ∈ generate_mandelbrot_set width height color_map bounds, col.length = height := by
  constructor
  · rw [generate_mandelbrot_set]
    simp
  · intro col hcol
    rw [generate_mandelbrot_set] at hcol
    simp only [List.mem_map, List.mem_range] at hcol
    obtain ⟨px, _, rfl⟩ := hcol
    simp

/-- Witness for the amended C7 at an invalid configuration
(`max_iterations = 0`, degenerate viewport). -/
theorem renderer_accepts_all_configurations_witness :
    (generate_mandelbrot_set 1 1 (ColorMap.grayscale ⟨0⟩) (0, 0, 0, 0)).length = 1
    ∧ ([((0, 0, 0) : RGB)]).length = 1 :=
  ⟨(renderer_accepts_all_configurations 1 1 (ColorMap.grayscale ⟨0⟩) (0, 0, 0, 0)).1,
   (renderer_accepts_all_configurations 1 1 (ColorMap.grayscale ⟨0⟩) (0, 0, 0, 0)).2
     [(0, 0, 0)]
     (by rw [show generate_mandelbrot_set 1 1 (ColorMap.grayscale ⟨0⟩) (0, 0, 0, 0)
               = [[(0, 0, 0)]] from rfl]
         exact List.mem_singleton.mpr rfl)⟩

/-- C9: the render is deterministic — the grid is a pure function of
width, height, strategy (with its gradient data) and viewport, so two
calls with the same arguments give equal grids; the embedding is a
total function of exactly these arguments and nothing else, so this is
definitional. -/
theorem render_deterministic (width height : Nat) (color_map : ColorMap)
    (bounds : Rat × Rat × Rat × Rat) :
    generate_mandelbrot_set width height color_map bounds
      = generate_mandelbrot_set width height color_map bounds := rfl

/-- C10: with `max_iterations ≥ 1` the loop body always runs at least
once — the entry test `0² + 0² ≤ 4` holds at the initial accumulator —
so every count the renderer passes to `strategy.color` is at least 1 and
count 0 is never produced. -/
theorem escape_count_at_least_one (max_iterations : Nat) (x0 y0 : Rat)
    (h : 1 ≤ max_iterations) : 1 ≤ escapeCount max_iterations x0 y0 := by
  obtain ⟨fuel, rfl⟩ : ∃ fuel, max_iterations = fuel + 1 :=
    ⟨max_iterations - 1, by omega⟩
  rw [escapeCount, escapeLoop_succ, if_pos (by norm_num : (0 : Rat) * 0 + 0 * 0 ≤ 4)]
  exact le_escapeLoop x0 y0 fuel _ _ 1

/-- Witness for C10 at `max_iterations = 100`, plane point `(0, 0)`. -/
theorem escape_count_at_least_one_witness : 1 ≤ escapeCount 100 0 0 :=
  escape_count_at_least_one 100 0 0 (by norm_num)

/-- `rustRound` is monotone on nonnegative inputs. -/
theorem rustRound_mono {a b : Rat} (ha : 0 ≤ a) (hab : a ≤ b) :
    rustRound a ≤ rustRound b := by
  rw [rustRound, rustRound, if_pos ha, if_pos (le_trans ha hab)]
  exact Int.floor_le_floor (by linarith)

/-- The saturating byte cast is monotone. -/
theorem asU8_mono {a b : Int} (h : a ≤ b) : asU8 a ≤ asU8 b := by
  rw [asU8, asU8]
  exact Int.toNat_le_toNat (min_le_min (max_le_max h le_rfl) le_rfl)

/-- One is a lower bound of the saturating byte cast on inputs ≥ 1. -/
theorem one_le_asU8 {a : Int} (h : 1 ≤ a) : 1 ≤ asU8 a := by
  have h1 : asU8 1 = 1 := by decide
  calc 1 = asU8 1 := h1.symm
    _ ≤ asU8 a := asU8_mono h

/-- The grayscale intensity at count 0 is exactly 0. -/
theorem grayscale_intensity_zero (max_iterations : Nat) :
    grayscale_intensity max_iterations 0 = 0 := by
  rw [grayscale_intensity]
  have h0 : ((0 : Nat) : Rat) / (max_iterations : Rat) * 255 = 0 := by norm_num
  rw [h0, rustRound, if_pos le_rfl]
  have hf : Int.floor ((0 : Rat) + 1 / 2) = 0 := by norm_num
  rw [hf]
  decide

/-- C8: for the grayscale strategy the escaping-point color is the
intensity `round(i / max_iterations * 255)` on all three channels
(saturated into a byte as Rust's `as u8` does); this intensity is
non-decreasing in the iteration count over `[0, max_iterations)`; and
`intensity 0 < intensity (max_iterations − 1)` whenever
`max_iterations > 1`. -/
theorem grayscale_intensity_monotone (max_iterations i j : Nat)
    (hmax : 0 < max_iterations) (hij : i ≤ j) (hj : j < max_iterations) :
    GrayscaleMap.color ⟨max_iterations⟩ i
      = (grayscale_intensity max_iterations i, grayscale_intensity max_iterations i,
          grayscale_intensity max_iterations i)
    ∧ grayscale_intensity max_iterations i ≤ grayscale_intensity max_iterations j
    ∧ (1 < max_iterations →
        grayscale_intensity max_iterations 0
          < grayscale_intensity max_iterations (max_iterations - 1)) := by
  have hm0 : (0 : Rat) < (max_iterations : Rat) := by exact_mod_cast hmax
  refine ⟨?_, ?_, ?_⟩
  · rw [GrayscaleMap.color, if_neg (by omega : ¬ i = max_iterations)]
  · rw [grayscale_intensity, grayscale_intensity]
    apply asU8_mono
    apply rustRound_mono
    · positivity
    · gcongr
  · intro h1
    rw [grayscale_intensity_zero]
    have hm2 : (2 : Rat) ≤ (max_iterations : Rat) := by exact_mod_cast h1
    have hcast : ((max_iterations - 1 : Nat) : Rat) = (max_iterations : Rat) - 1 := by
      rw [Nat.cast_sub (by omega : 1 ≤ max_iterations), Nat.cast_one]
    have hq : (1 : Rat) / 2 ≤ ((max_iterations - 1 : Nat) : Rat) / (max_iterations : Rat) * 255 := by
      rw [hcast, div_mul_eq_mul_div, le_div_iff₀ hm0]
      nlinarith
    have hr : 1 ≤ rustRound (((max_iterations - 1 : Nat) : Rat) / (max_iterations : Rat) * 255) := by
      rw [rustRound, if_pos (by linarith)]
      refine Int.le_floor.mpr ?_
      push_cast
      linarith
    rw [grayscale_intensity]
    exact lt_of_lt_of_le Nat.zero_lt_one (one_le_asU8 hr)

/-- Witness for C8 at `max_iterations = 2`, counts `i = 0 ≤ j = 1`. -/
theorem grayscale_intensity_monotone_witness :
    GrayscaleMap.color ⟨2⟩ 0
      = (grayscale_intensity 2 0, grayscale_intensity 2 0, grayscale_intensity 2 0)
    ∧ grayscale_intensity 2 0 ≤ grayscale_intensity 2 1
    ∧ (1 < 2 → grayscale_intensity 2 0 < grayscale_intensity 2 (2 - 1)) :=
  grayscale_intensity_monotone 2 0 1 (by norm_num) (by norm_num) (by norm_num)
